import Mathlib

/-!
Shallow embedding of `src/worker/external-notifications/apprise-runner.py`:
a one-shot command-line adapter that reads a JSON payload from stdin,
registers destination URLs with the external `apprise` library, triggers a
single notify call, and writes a JSON result line to stdout.

The external library is modelled by two oracles passed to `main`:
  * `add i url` — the result of the i-th `apobj.add(url)` call:
    `some b` means the call returned a value of truthiness `b`,
    `none` means it raised (the script swallows that exception);
  * `notify title body notifyType` — the single `apobj.notify(...)` call:
    `Except.ok b` means it returned, with `bool(...)` of the result `b`,
    `Except.error msg` means it raised an exception rendering as `msg`.

Stdin is modelled after decoding: `none` means `json.load` raised,
`some v` means it produced the JSON value `v`.
-/

/-- A decoded JSON value as produced by Python's `json.load`.
Numbers are modelled as integers (the fractional part plays no role in
the script's control flow). -/
inductive JValue where
  | null : JValue
  | bool : Bool → JValue
  | num : Int → JValue
  | str : String → JValue
  | arr : List JValue → JValue
  | obj : List (String × JValue) → JValue

/-- Python truthiness (`bool(x)`) of a decoded JSON value. -/
def pyTruthy : JValue → Bool
  | JValue.null => false
  | JValue.bool b => b
  | JValue.num n => decide (n ≠ 0)
  | JValue.str s => decide (s ≠ "")
  | JValue.arr xs => !xs.isEmpty
  | JValue.obj kvs => !kvs.isEmpty

/-- Python `dict.get k`: the value of the last binding of `k` (JSON object
decoding keeps the last duplicate key), or `none` when absent. -/
def pyGet (kvs : List (String × JValue)) (k : String) : Option JValue :=
  match kvs with
  | [] => none
  | (k₀, v₀) :: rest =>
    match pyGet rest k with
    | some w => some w
    | none => if k₀ = k then some v₀ else none

/-- Python `x or d` applied to an optional lookup result: absent or
falsy values are replaced by the default `d`. Embeds the
`payload.get(...) or ...` idiom of lines 19, 23, 24, 25. -/
def pyOr (v : Option JValue) (d : JValue) : JValue :=
  match v with
  | none => d
  | some x => if pyTruthy x then x else d

/-- Python `isinstance(v, list)`. -/
def isList : JValue → Bool
  | JValue.arr _ => true
  | _ => false

/-- Python `isinstance(v, str)`. -/
def isStr : JValue → Bool
  | JValue.str _ => true
  | _ => false

/-- Python `str.strip()` (ASCII whitespace, which covers every string the
claims exercise), written over the character list so that it evaluates by
kernel reduction. -/
def pyStrip (s : String) : String :=
  ⟨((s.data.dropWhile Char.isWhitespace).reverse.dropWhile Char.isWhitespace).reverse⟩

/-- Python `str.lower()` (ASCII letters, which covers every string the
claims exercise), written over the character list so that it evaluates by
kernel reduction. -/
def pyLower (s : String) : String :=
  ⟨s.data.map Char.toLower⟩

/-- The accepted notify types of line 27: `{"info", "success", "warning",
"failure"}`. -/
def validNotifyTypes : List String := ["info", "success", "warning", "failure"]

/-- Lines 25–28: `notify_type = (payload.get("notifyType") or "info").lower()`
followed by the membership coercion to `"info"`. Returns `none` when the
`or`-result is not a string, in which case `.lower()` raises an uncaught
`AttributeError` (the script does not guard this). -/
def notify_type_of (kvs : List (String × JValue)) : Option String :=
  match pyOr (pyGet kvs "notifyType") (JValue.str "info") with
  | JValue.str rawType =>
    some (if pyLower rawType ∈ validNotifyTypes then pyLower rawType else "info")
  | _ => none

/-- The serialized error object written by `_fail`:
`json.dumps({"success": False, "error": message})`. Every message the
script passes is a fixed ASCII literal, so no JSON string escaping is
needed. -/
def failJson (message : String) : String :=
  "\x7b\"success\": false, \"error\": \"" ++ message ++ "\"\x7d"

/-- The newline-terminated line `_fail` writes to stdout (line 8). -/
def failLine (message : String) : String := failJson message ++ "\n"

/-- The serialized result object of line 59:
`json.dumps({"success": ok, "destinations": added})`. -/
def resultJson (ok : Bool) (added : Nat) : String :=
  "\x7b\"success\": " ++ (if ok then "true" else "false")
    ++ ", \"destinations\": " ++ toString added ++ "\x7d"

/-- The newline-terminated result line of line 59. -/
def resultLine (ok : Bool) (added : Nat) : String := resultJson ok added ++ "\n"

/-- The observable end of a run: `exited` for `SystemExit` via `_fail` or
line 61, `crashed` for an uncaught exception. `stdout`/`stderr` are the
lists of strings the script itself wrote to each stream, in order. -/
inductive Outcome where
  | exited : List String → List String → Nat → Outcome
  | crashed : List String → List String → Outcome
deriving DecidableEq

/-- The stdout writes of an outcome. -/
def Outcome.stdoutOf : Outcome → List String
  | Outcome.exited out _ _ => out
  | Outcome.crashed out _ => out

/-- The stderr writes of an outcome. -/
def Outcome.stderrOf : Outcome → List String
  | Outcome.exited _ err _ => err
  | Outcome.crashed _ err => err

/-- The `_fail(message)` helper (lines 7–10): write the error line, flush, exit 1
(the script never passes a different `exit_code`). -/
def failOutcome (message : String) : Outcome :=
  Outcome.exited [failLine message] [] 1

/-- The registration loop of lines 36–46: skip non-strings, strip, skip
empty, count adds whose oracle result is `some true`; a raised `add`
(`none`) is swallowed. `i` is the index of the current entry in `urls`. -/
def addLoop (add : Nat → String → Option Bool) (i : Nat) : List JValue → Nat
  | [] => 0
  | raw :: rest =>
    match raw with
    | JValue.str s =>
      if pyStrip s = "" then addLoop add (i + 1) rest
      else
        match add i (pyStrip s) with
        | some true => addLoop add (i + 1) rest + 1
        | _ => addLoop add (i + 1) rest
    | _ => addLoop add (i + 1) rest

/-- Lines 52–61: the dispatch call and the report that follows it.
On a raise: diagnostic to stderr, then `_fail("Apprise notify failed")`.
On a return: the result line, exit 0 iff the returned bool is true. -/
def dispatchOutcome (added : Nat) : Except String Bool → Outcome
  | Except.error msg =>
    Outcome.exited [failLine "Apprise notify failed"]
      ["Apprise notify failed: " ++ msg ++ "\n"] 1
  | Except.ok ok =>
    Outcome.exited [resultLine ok added] [] (if ok then 0 else 1)

/-- The body of `main()` after a successful `json.load` of an object
(lines 19–61): urls shape check, notify-type normalization (a truthy
non-string `notifyType` means `.lower()` raises an uncaught
`AttributeError`, hence `crashed`), title/body type check, registration
loop, dispatch, report. -/
def handlePayload (kvs : List (String × JValue)) (add : Nat → String → Option Bool)
    (notify : String → String → String → Except String Bool) : Outcome :=
  match pyOr (pyGet kvs "urls") (JValue.arr []) with
  | JValue.arr urlItems =>
    match notify_type_of kvs with
    | some notify_type =>
      match pyOr (pyGet kvs "title") (JValue.str ""),
            pyOr (pyGet kvs "body") (JValue.str "") with
      | JValue.str title, JValue.str body =>
        if addLoop add 0 urlItems = 0 then
          failOutcome "No valid notification destinations"
        else
          dispatchOutcome (addLoop add 0 urlItems) (notify title body notify_type)
      | _, _ => failOutcome "Invalid title/body"
    | none => Outcome.crashed [] []
  | _ => failOutcome "Invalid urls: expected list"

/-- The script entry point `main()` (lines 13–61; named `runMain` here
since Lean reserves `main`). `input` is the decoded stdin (`none`: the
`json.load` raised). A payload that is valid JSON but not an object makes
`payload.get` raise an uncaught `AttributeError`, hence `crashed`. -/
def runMain (input : Option JValue) (add : Nat → String → Option Bool)
    (notify : String → String → String → Except String Bool) : Outcome :=
  match input with
  | none => failOutcome "Invalid JSON payload"
  | some (JValue.obj kvs) => handlePayload kvs add notify
  | some _ => Outcome.crashed [] []

/-! ### Concrete oracles used by witnesses and counterexamples -/

/-- An `add` oracle that accepts every URL. -/
def addAlways : Nat → String → Option Bool := fun _ _ => some true

/-- A `notify` oracle that returns `True`. -/
def notifyOk : String → String → String → Except String Bool :=
  fun _ _ _ => Except.ok true

/-- A `notify` oracle that raises an exception rendering as `"boom"`. -/
def notifyBoom : String → String → String → Except String Bool :=
  fun _ _ _ => Except.error "boom"

/-! ### Path lemmas about `runMain` -/

theorem pyOr_truthy (v d : JValue) (h : pyTruthy v = true) : pyOr (some v) d = v := by
  simp [pyOr, h]

theorem pyOr_falsy (v d : JValue) (h : pyTruthy v = false) : pyOr (some v) d = d := by
  simp [pyOr, h]

theorem runMain_obj (kvs : List (String × JValue)) (add : Nat → String → Option Bool)
    (notify : String → String → String → Except String Bool) :
    runMain (some (JValue.obj kvs)) add notify = handlePayload kvs add notify := rfl

theorem runMain_invalid_urls (kvs : List (String × JValue)) (v : JValue)
    (add : Nat → String → Option Bool)
    (notify : String → String → String → Except String Bool)
    (h1 : pyGet kvs "urls" = some v) (h2 : pyTruthy v = true)
    (h3 : isList v = false) :
    runMain (some (JValue.obj kvs)) add notify
      = failOutcome "Invalid urls: expected list" := by
  have hv : pyOr (pyGet kvs "urls") (JValue.arr []) = v := by
    rw [h1]; exact pyOr_truthy v _ h2
  rw [runMain_obj]
  unfold handlePayload
  rw [hv]
  cases v <;> first | rfl | simp [isList] at h3

theorem runMain_validated (kvs : List (String × JValue)) (urlItems : List JValue)
    (nt t b : String) (add : Nat → String → Option Bool)
    (notify : String → String → String → Except String Bool)
    (hu : pyOr (pyGet kvs "urls") (JValue.arr []) = JValue.arr urlItems)
    (hnt : notify_type_of kvs = some nt)
    (ht : pyOr (pyGet kvs "title") (JValue.str "") = JValue.str t)
    (hb : pyOr (pyGet kvs "body") (JValue.str "") = JValue.str b) :
    runMain (some (JValue.obj kvs)) add notify
      = if addLoop add 0 urlItems = 0 then
          failOutcome "No valid notification destinations"
        else dispatchOutcome (addLoop add 0 urlItems) (notify t b nt) := by
  rw [runMain_obj]
  unfold handlePayload
  rw [hu, hnt, ht, hb]

theorem runMain_invalid_title_body (kvs : List (String × JValue))
    (urlItems : List JValue) (nt : String) (add : Nat → String → Option Bool)
    (notify : String → String → String → Except String Bool)
    (hu : pyOr (pyGet kvs "urls") (JValue.arr []) = JValue.arr urlItems)
    (hnt : notify_type_of kvs = some nt)
    (htb : isStr (pyOr (pyGet kvs "title") (JValue.str "")) = false
         ∨ isStr (pyOr (pyGet kvs "body") (JValue.str "")) = false) :
    runMain (some (JValue.obj kvs)) add notify
      = failOutcome "Invalid title/body" := by
  rw [runMain_obj]
  unfold handlePayload
  rw [hu, hnt]
  cases hT : pyOr (pyGet kvs "title") (JValue.str "") <;>
    cases hB : pyOr (pyGet kvs "body") (JValue.str "") <;>
      first
      | rfl
      | (rw [hT, hB] at htb; simp [isStr] at htb)

theorem runMain_dispatch_ok (kvs : List (String × JValue)) (urlItems : List JValue)
    (nt t b : String) (res : Bool) (add : Nat → String → Option Bool)
    (notify : String → String → String → Except String Bool)
    (hu : pyOr (pyGet kvs "urls") (JValue.arr []) = JValue.arr urlItems)
    (hnt : notify_type_of kvs = some nt)
    (ht : pyOr (pyGet kvs "title") (JValue.str "") = JValue.str t)
    (hb : pyOr (pyGet kvs "body") (JValue.str "") = JValue.str b)
    (hz : addLoop add 0 urlItems ≠ 0)
    (hres : notify t b nt = Except.ok res) :
    runMain (some (JValue.obj kvs)) add notify
      = Outcome.exited [resultLine res (addLoop add 0 urlItems)] []
          (if res then 0 else 1) := by
  rw [runMain_validated kvs urlItems nt t b add notify hu hnt ht hb, if_neg hz, hres]
  rfl

theorem runMain_dispatch_error (kvs : List (String × JValue)) (urlItems : List JValue)
    (nt t b msg : String) (add : Nat → String → Option Bool)
    (notify : String → String → String → Except String Bool)
    (hu : pyOr (pyGet kvs "urls") (JValue.arr []) = JValue.arr urlItems)
    (hnt : notify_type_of kvs = some nt)
    (ht : pyOr (pyGet kvs "title") (JValue.str "") = JValue.str t)
    (hb : pyOr (pyGet kvs "body") (JValue.str "") = JValue.str b)
    (hz : addLoop add 0 urlItems ≠ 0)
    (hmsg : notify t b nt = Except.error msg) :
    runMain (some (JValue.obj kvs)) add notify
      = Outcome.exited [failLine "Apprise notify failed"]
          ["Apprise notify failed: " ++ msg ++ "\n"] 1 := by
  rw [runMain_validated kvs urlItems nt t b add notify hu hnt ht hb, if_neg hz, hmsg]
  rfl

theorem addLoop_le (add : Nat → String → Option Bool) (l : List JValue) :
    ∀ i, addLoop add i l ≤ l.length := by
  induction l with
  | nil => intro i; exact Nat.le_refl 0
  | cons raw rest ih =>
    intro i
    have h := ih (i + 1)
    cases raw with
    | str s =>
      by_cases hs : pyStrip s = ""
      · simp only [addLoop, if_pos hs, List.length_cons]; omega
      · cases hadd : add i (pyStrip s) with
        | none => simp only [addLoop, if_neg hs, hadd, List.length_cons]; omega
        | some bb =>
          cases bb <;> simp only [addLoop, if_neg hs, hadd, List.length_cons] <;> omega
    | null => simp only [addLoop, List.length_cons]; omega
    | bool b => simp only [addLoop, List.length_cons]; omega
    | num n => simp only [addLoop, List.length_cons]; omega
    | arr xs => simp only [addLoop, List.length_cons]; omega
    | obj kvs => simp only [addLoop, List.length_cons]; omega

theorem stderr_empty_of_notify_total (input : Option JValue)
    (add : Nat → String → Option Bool)
    (notify : String → String → String → Except String Bool)
    (hok : ∀ x y z, ∃ r, notify x y z = Except.ok r) :
    Outcome.stderrOf (runMain input add notify) = [] := by
  cases input with
  | none => rfl
  | some v =>
    cases v with
    | null => rfl
    | bool b => rfl
    | num n => rfl
    | str s => rfl
    | arr xs => rfl
    | obj kvs =>
      rw [runMain_obj]
      unfold handlePayload
      cases hu : pyOr (pyGet kvs "urls") (JValue.arr []) <;> try rfl
      case arr urlItems =>
        cases hnt : notify_type_of kvs with
        | none => rfl
        | some nt =>
          cases hT : pyOr (pyGet kvs "title") (JValue.str "") <;>
            cases hB : pyOr (pyGet kvs "body") (JValue.str "") <;> try rfl
          rename_i t b
          show Outcome.stderrOf
              (if addLoop add 0 urlItems = 0 then
                failOutcome "No valid notification destinations"
              else dispatchOutcome (addLoop add 0 urlItems) (notify t b nt)) = []
          by_cases hz : addLoop add 0 urlItems = 0
          · rw [if_pos hz]; rfl
          · rw [if_neg hz]
            obtain ⟨r, hr⟩ := hok t b nt
            rw [hr]
            rfl

/-! ### Claims -/

/-- C1, counterexample: the claim covers every non-sequence value of
`urls`, explicitly including booleans, yet `urls: false` is falsy, so
`payload.get("urls") or []` replaces it with the empty list before the
`isinstance` check; the run reports "No valid notification destinations"
instead of "Invalid urls: expected list". -/
theorem C1_counterexample :
    runMain (some (JValue.obj [("urls", JValue.bool false)])) addAlways notifyOk
      = failOutcome "No valid notification destinations"
    ∧ runMain (some (JValue.obj [("urls", JValue.bool false)])) addAlways notifyOk
      ≠ failOutcome "Invalid urls: expected list" :=
  ⟨rfl, by decide⟩

/-- C1 (amended): for every payload object in which `urls` is present
with a truthy value that is not a list, the program writes the
`{"success": false, "error": "Invalid urls: expected list"}` line to
stdout and exits with code 1. -/
theorem C1_theorem (kvs : List (String × JValue)) (v : JValue)
    (add : Nat → String → Option Bool)
    (notify : String → String → String → Except String Bool)
    (h1 : pyGet kvs "urls" = some v) (h2 : pyTruthy v = true)
    (h3 : isList v = false) :
    runMain (some (JValue.obj kvs)) add notify
      = failOutcome "Invalid urls: expected list" :=
  runMain_invalid_urls kvs v add notify h1 h2 h3

/-- C1 witness: `urls: "x"` (a truthy string) hits the amended claim. -/
theorem C1_witness :
    runMain (some (JValue.obj [("urls", JValue.str "x")])) addAlways notifyOk
      = failOutcome "Invalid urls: expected list" :=
  C1_theorem [("urls", JValue.str "x")] (JValue.str "x") addAlways notifyOk
    rfl (by decide) rfl

/-- C2, counterexample: the claim covers every non-string `title`,
explicitly including numbers, yet `title: 0` is falsy, so
`payload.get("title") or ""` replaces it with `""` before the
`isinstance` check; with a working destination the run completes and
reports success instead of "Invalid title/body". -/
theorem C2_counterexample :
    runMain (some (JValue.obj [("urls", JValue.arr [JValue.str "m"]),
        ("title", JValue.num 0)])) addAlways notifyOk
      = Outcome.exited [resultLine true 1] [] 0
    ∧ runMain (some (JValue.obj [("urls", JValue.arr [JValue.str "m"]),
        ("title", JValue.num 0)])) addAlways notifyOk
      ≠ failOutcome "Invalid title/body" :=
  ⟨rfl, by decide⟩

/-- C2 (amended): for every payload whose `urls` passes the list check
and whose `notifyType` does not crash, if `title` or `body` is present
with a truthy non-string value, the program writes the
`{"success": false, "error": "Invalid title/body"}` line to stdout and
exits with code 1. -/
theorem C2_theorem (kvs : List (String × JValue)) (urlItems : List JValue)
    (nt : String) (add : Nat → String → Option Bool)
    (notify : String → String → String → Except String Bool)
    (hu : pyOr (pyGet kvs "urls") (JValue.arr []) = JValue.arr urlItems)
    (hnt : notify_type_of kvs = some nt)
    (htb : (∃ tv, pyGet kvs "title" = some tv ∧ pyTruthy tv = true ∧ isStr tv = false)
         ∨ (∃ bv, pyGet kvs "body" = some bv ∧ pyTruthy bv = true ∧ isStr bv = false)) :
    runMain (some (JValue.obj kvs)) add notify
      = failOutcome "Invalid title/body" := by
  apply runMain_invalid_title_body kvs urlItems nt add notify hu hnt
  rcases htb with ⟨tv, hg, htr, hns⟩ | ⟨bv, hg, htr, hns⟩
  · left; rw [hg, pyOr_truthy tv _ htr]; exact hns
  · right; rw [hg, pyOr_truthy bv _ htr]; exact hns

/-- C2 witness: `title: [1]` (a truthy non-string) with a list `urls`. -/
theorem C2_witness :
    runMain (some (JValue.obj [("urls", JValue.arr []),
        ("title", JValue.arr [JValue.num 1])])) addAlways notifyOk
      = failOutcome "Invalid title/body" :=
  C2_theorem [("urls", JValue.arr []), ("title", JValue.arr [JValue.num 1])]
    [] "info" addAlways notifyOk rfl rfl
    (Or.inl ⟨JValue.arr [JValue.num 1], rfl, by decide, rfl⟩)

/-- C3, counterexample: the claim covers every value of `notifyType`,
but `notifyType: 5` is truthy and not a string, so `.lower()` raises an
uncaught `AttributeError`: the process crashes with no fallback to
`"info"` and no dispatch at all. -/
theorem C3_counterexample :
    runMain (some (JValue.obj [("urls", JValue.arr [JValue.str "m"]),
        ("notifyType", JValue.num 5)])) addAlways notifyOk
      = Outcome.crashed [] []
    ∧ runMain (some (JValue.obj [("urls", JValue.arr [JValue.str "m"]),
        ("notifyType", JValue.num 5)])) addAlways notifyOk
      ≠ dispatchOutcome 1 (notifyOk "" "" "info") :=
  ⟨rfl, by decide⟩

/-- C3 (amended): for every `notifyType` whose `or "info"` result is a
string (that is: every string value, every falsy value, and an absent
field), the program lowercases it, coerces any value outside
`{info, success, warning, failure}` to `"info"` with no error for that
field, and the dispatch call receives the normalized type; truthy
non-string values instead crash the process. -/
theorem C3_theorem (kvs : List (String × JValue)) (s : String)
    (urlItems : List JValue) (t b : String)
    (add : Nat → String → Option Bool)
    (notify : String → String → String → Except String Bool)
    (hs : pyOr (pyGet kvs "notifyType") (JValue.str "info") = JValue.str s)
    (hu : pyOr (pyGet kvs "urls") (JValue.arr []) = JValue.arr urlItems)
    (ht : pyOr (pyGet kvs "title") (JValue.str "") = JValue.str t)
    (hb : pyOr (pyGet kvs "body") (JValue.str "") = JValue.str b)
    (hz : addLoop add 0 urlItems ≠ 0) :
    notify_type_of kvs
        = some (if pyLower s ∈ validNotifyTypes then pyLower s else "info")
    ∧ runMain (some (JValue.obj kvs)) add notify
        = dispatchOutcome (addLoop add 0 urlItems)
            (notify t b (if pyLower s ∈ validNotifyTypes then pyLower s else "info")) := by
  have hnt : notify_type_of kvs
      = some (if pyLower s ∈ validNotifyTypes then pyLower s else "info") := by
    unfold notify_type_of
    rw [hs]
  refine ⟨hnt, ?_⟩
  rw [runMain_validated kvs urlItems _ t b add notify hu hnt ht hb, if_neg hz]

/-- C3 witness: `notifyType: "URGENT"` is normalized to `"info"` and the
dispatch call receives `"info"`. -/
theorem C3_witness :
    notify_type_of [("urls", JValue.arr [JValue.str "m"]),
        ("notifyType", JValue.str "URGENT")]
      = some (if pyLower "URGENT" ∈ validNotifyTypes then pyLower "URGENT" else "info")
    ∧ runMain (some (JValue.obj [("urls", JValue.arr [JValue.str "m"]),
          ("notifyType", JValue.str "URGENT")])) addAlways notifyOk
      = dispatchOutcome (addLoop addAlways 0 [JValue.str "m"])
          (notifyOk "" ""
            (if pyLower "URGENT" ∈ validNotifyTypes then pyLower "URGENT" else "info")) :=
  C3_theorem [("urls", JValue.arr [JValue.str "m"]),
      ("notifyType", JValue.str "URGENT")]
    "URGENT" [JValue.str "m"] "" "" addAlways notifyOk rfl rfl rfl rfl (by decide)

/-- C4: whenever the dispatch call completes without raising, the program
writes `{"success": b, "destinations": n}` — `b` the bool the library
returned, `n` the number of destinations registered by the loop — and
exits 0 if `b` is true, else 1. -/
theorem C4_theorem (kvs : List (String × JValue)) (urlItems : List JValue)
    (nt t b : String) (res : Bool) (add : Nat → String → Option Bool)
    (notify : String → String → String → Except String Bool)
    (hu : pyOr (pyGet kvs "urls") (JValue.arr []) = JValue.arr urlItems)
    (hnt : notify_type_of kvs = some nt)
    (ht : pyOr (pyGet kvs "title") (JValue.str "") = JValue.str t)
    (hb : pyOr (pyGet kvs "body") (JValue.str "") = JValue.str b)
    (hz : addLoop add 0 urlItems ≠ 0)
    (hres : notify t b nt = Except.ok res) :
    runMain (some (JValue.obj kvs)) add notify
      = Outcome.exited [resultLine res (addLoop add 0 urlItems)] []
          (if res then 0 else 1) :=
  runMain_dispatch_ok kvs urlItems nt t b res add notify hu hnt ht hb hz hres

/-- C4 witness: one working destination, library returns true: the
result line is written and the exit code is 0. -/
theorem C4_witness :
    runMain (some (JValue.obj [("urls", JValue.arr [JValue.str "m"])]))
        addAlways notifyOk
      = Outcome.exited [resultLine true (addLoop addAlways 0 [JValue.str "m"])] []
          (if true then 0 else 1) :=
  C4_theorem [("urls", JValue.arr [JValue.str "m"])] [JValue.str "m"]
    "info" "" "" true addAlways notifyOk rfl rfl rfl rfl (by decide) rfl

/-- C5: for every validated request in which zero destinations are
registered, the program writes the
`{"success": false, "error": "No valid notification destinations"}` line
to stdout (and nothing else: bad entries surface no error of their own)
and exits with code 1. -/
theorem C5_theorem (kvs : List (String × JValue)) (urlItems : List JValue)
    (nt t b : String) (add : Nat → String → Option Bool)
    (notify : String → String → String → Except String Bool)
    (hu : pyOr (pyGet kvs "urls") (JValue.arr []) = JValue.arr urlItems)
    (hnt : notify_type_of kvs = some nt)
    (ht : pyOr (pyGet kvs "title") (JValue.str "") = JValue.str t)
    (hb : pyOr (pyGet kvs "body") (JValue.str "") = JValue.str b)
    (hz : addLoop add 0 urlItems = 0) :
    runMain (some (JValue.obj kvs)) add notify
      = failOutcome "No valid notification destinations" := by
  rw [runMain_validated kvs urlItems nt t b add notify hu hnt ht hb, if_pos hz]

/-- C5 witness: `urls: []` registers nothing. -/
theorem C5_witness :
    runMain (some (JValue.obj [("urls", JValue.arr [])])) addAlways notifyOk
      = failOutcome "No valid notification destinations" :=
  C5_theorem [("urls", JValue.arr [])] [] "info" "" "" addAlways notifyOk
    rfl rfl rfl rfl rfl

/-- C6: for every stdin input whose JSON decoding fails, the program
writes the `{"success": false, "error": "Invalid JSON payload"}` line to
stdout and exits with code 1. -/
theorem C6_theorem (add : Nat → String → Option Bool)
    (notify : String → String → String → Except String Bool) :
    runMain none add notify
      = Outcome.exited [failLine "Invalid JSON payload"] [] 1
    ∧ failLine "Invalid JSON payload"
      = "\x7b\"success\": false, \"error\": \"Invalid JSON payload\"\x7d\n" :=
  ⟨rfl, rfl⟩

/-- C7: if the notify call raises, the exception is caught, a diagnostic
line goes to stderr, the `{"success": false, "error": "Apprise notify
failed"}` line goes to stdout and the exit code is 1; and whenever the
notify oracle never raises, stderr stays empty on every input — the
dispatch-failure path is the only one that writes to stderr. -/
theorem C7_theorem :
    (∀ (kvs : List (String × JValue)) (urlItems : List JValue)
        (nt t b msg : String) (add : Nat → String → Option Bool)
        (notify : String → String → String → Except String Bool),
      pyOr (pyGet kvs "urls") (JValue.arr []) = JValue.arr urlItems →
      notify_type_of kvs = some nt →
      pyOr (pyGet kvs "title") (JValue.str "") = JValue.str t →
      pyOr (pyGet kvs "body") (JValue.str "") = JValue.str b →
      addLoop add 0 urlItems ≠ 0 →
      notify t b nt = Except.error msg →
      runMain (some (JValue.obj kvs)) add notify
        = Outcome.exited [failLine "Apprise notify failed"]
            ["Apprise notify failed: " ++ msg ++ "\n"] 1)
    ∧ (∀ (input : Option JValue) (add : Nat → String → Option Bool)
        (notify : String → String → String → Except String Bool),
      (∀ x y z, ∃ r, notify x y z = Except.ok r) →
      Outcome.stderrOf (runMain input add notify) = []) :=
  ⟨fun kvs urlItems nt t b msg add notify hu hnt ht hb hz hmsg =>
    runMain_dispatch_error kvs urlItems nt t b msg add notify hu hnt ht hb hz hmsg,
   stderr_empty_of_notify_total⟩

/-- C7 witness: a raising notify oracle produces the stderr diagnostic
and the error line; a non-raising one leaves stderr empty. -/
theorem C7_witness :
    runMain (some (JValue.obj [("urls", JValue.arr [JValue.str "m"])]))
        addAlways notifyBoom
      = Outcome.exited [failLine "Apprise notify failed"]
          ["Apprise notify failed: boom\n"] 1
    ∧ Outcome.stderrOf (runMain none addAlways notifyOk) = [] :=
  ⟨C7_theorem.1 [("urls", JValue.arr [JValue.str "m"])] [JValue.str "m"]
      "info" "" "" "boom" addAlways notifyBoom rfl rfl rfl rfl (by decide) rfl,
   C7_theorem.2 none addAlways notifyOk (fun _ _ _ => ⟨true, rfl⟩)⟩

/-- C8, counterexample: the claim covers every possible stdin input, but
an input that is valid JSON without being an object — here the array
`[]` — makes `payload.get` raise an uncaught `AttributeError`: the
process dies with zero JSON objects written to stdout. -/
theorem C8_counterexample :
    runMain (some (JValue.arr [])) addAlways notifyOk = Outcome.crashed [] []
    ∧ Outcome.stdoutOf (runMain (some (JValue.arr [])) addAlways notifyOk) = [] :=
  ⟨rfl, rfl⟩

/-- C8 (amended): every run either dies of an uncaught exception with
nothing written, or terminates via `SystemExit` having written exactly
one newline-terminated JSON line to stdout — never zero lines and never
more than one. -/
theorem C8_theorem (input : Option JValue) (add : Nat → String → Option Bool)
    (notify : String → String → String → Except String Bool) :
    runMain input add notify = Outcome.crashed [] []
    ∨ ∃ line err code pre,
        runMain input add notify = Outcome.exited [line] err code
        ∧ line = pre ++ "\n" := by
  cases input with
  | none =>
    exact Or.inr ⟨failLine "Invalid JSON payload", [], 1,
      failJson "Invalid JSON payload", rfl, rfl⟩
  | some v =>
    cases v with
    | null => exact Or.inl rfl
    | bool b => exact Or.inl rfl
    | num n => exact Or.inl rfl
    | str s => exact Or.inl rfl
    | arr xs => exact Or.inl rfl
    | obj kvs =>
      rw [runMain_obj]
      unfold handlePayload
      cases hu : pyOr (pyGet kvs "urls") (JValue.arr []) <;>
        try exact Or.inr ⟨failLine "Invalid urls: expected list", [], 1,
          failJson "Invalid urls: expected list", rfl, rfl⟩
      case arr urlItems =>
        cases hnt : notify_type_of kvs with
        | none => exact Or.inl rfl
        | some nt =>
          cases hT : pyOr (pyGet kvs "title") (JValue.str "") <;>
            cases hB : pyOr (pyGet kvs "body") (JValue.str "") <;>
              try exact Or.inr ⟨failLine "Invalid title/body", [], 1,
                failJson "Invalid title/body", rfl, rfl⟩
          rename_i t b
          show (if addLoop add 0 urlItems = 0 then
                  failOutcome "No valid notification destinations"
                else dispatchOutcome (addLoop add 0 urlItems) (notify t b nt))
              = Outcome.crashed [] []
            ∨ ∃ line err code pre,
                (if addLoop add 0 urlItems = 0 then
                  failOutcome "No valid notification destinations"
                else dispatchOutcome (addLoop add 0 urlItems) (notify t b nt))
                  = Outcome.exited [line] err code
                ∧ line = pre ++ "\n"
          by_cases hz : addLoop add 0 urlItems = 0
          · rw [if_pos hz]
            exact Or.inr ⟨failLine "No valid notification destinations", [], 1,
              failJson "No valid notification destinations", rfl, rfl⟩
          · rw [if_neg hz]
            cases hres : notify t b nt with
            | error msg =>
              exact Or.inr ⟨failLine "Apprise notify failed",
                ["Apprise notify failed: " ++ msg ++ "\n"], 1,
                failJson "Apprise notify failed", rfl, rfl⟩
            | ok r =>
              exact Or.inr ⟨resultLine r (addLoop add 0 urlItems), [],
                if r then 0 else 1, resultJson r (addLoop add 0 urlItems), rfl, rfl⟩

/-- C9: the `urls` shape error is decided first — a payload with a
truthy non-list `urls` and an invalid `title` reports
"Invalid urls: expected list" — and when `title`/`body` fails the type
check the outcome is "Invalid title/body" and is independent of the
`add` oracle: no URL is ever registered with the dispatch client. -/
theorem C9_theorem :
    (∀ (kvs : List (String × JValue)) (v : JValue)
        (add : Nat → String → Option Bool)
        (notify : String → String → String → Except String Bool),
      pyGet kvs "urls" = some v → pyTruthy v = true → isList v = false →
      runMain (some (JValue.obj kvs)) add notify
        = failOutcome "Invalid urls: expected list")
    ∧ (∀ (kvs : List (String × JValue)) (urlItems : List JValue) (nt : String)
        (add add2 : Nat → String → Option Bool)
        (notify : String → String → String → Except String Bool),
      pyOr (pyGet kvs "urls") (JValue.arr []) = JValue.arr urlItems →
      notify_type_of kvs = some nt →
      (isStr (pyOr (pyGet kvs "title") (JValue.str "")) = false
        ∨ isStr (pyOr (pyGet kvs "body") (JValue.str "")) = false) →
      runMain (some (JValue.obj kvs)) add notify
          = failOutcome "Invalid title/body"
      ∧ runMain (some (JValue.obj kvs)) add notify
          = runMain (some (JValue.obj kvs)) add2 notify) :=
  ⟨fun kvs v add notify h1 h2 h3 => runMain_invalid_urls kvs v add notify h1 h2 h3,
   fun kvs urlItems nt add add2 notify hu hnt htb =>
    ⟨runMain_invalid_title_body kvs urlItems nt add notify hu hnt htb,
     (runMain_invalid_title_body kvs urlItems nt add notify hu hnt htb).trans
       (runMain_invalid_title_body kvs urlItems nt add2 notify hu hnt htb).symm⟩⟩

/-- C9 witness: a payload with `urls: "x"` and `title: 7` reports the
urls error; a payload with list urls and `title: 7` reports the
title/body error, identically under two different `add` oracles. -/
theorem C9_witness :
    runMain (some (JValue.obj [("urls", JValue.str "x"), ("title", JValue.num 7)]))
        addAlways notifyOk
      = failOutcome "Invalid urls: expected list"
    ∧ (runMain (some (JValue.obj [("urls", JValue.arr [JValue.str "m"]),
          ("title", JValue.num 7)])) addAlways notifyOk
        = failOutcome "Invalid title/body"
      ∧ runMain (some (JValue.obj [("urls", JValue.arr [JValue.str "m"]),
          ("title", JValue.num 7)])) addAlways notifyOk
        = runMain (some (JValue.obj [("urls", JValue.arr [JValue.str "m"]),
            ("title", JValue.num 7)])) (fun _ _ => none) notifyOk) :=
  ⟨C9_theorem.1 [("urls", JValue.str "x"), ("title", JValue.num 7)]
      (JValue.str "x") addAlways notifyOk rfl (by decide) rfl,
   C9_theorem.2 [("urls", JValue.arr [JValue.str "m"]), ("title", JValue.num 7)]
      [JValue.str "m"] "info" addAlways (fun _ _ => none) notifyOk rfl rfl
      (Or.inl (by decide))⟩

/-- C10: whenever the completed-dispatch result object is emitted, its
`destinations` count is at least 1 (the zero case took the error path)
and at most the length of the `urls` list. -/
theorem C10_theorem (kvs : List (String × JValue)) (urlItems : List JValue)
    (nt t b : String) (res : Bool) (add : Nat → String → Option Bool)
    (notify : String → String → String → Except String Bool)
    (hu : pyOr (pyGet kvs "urls") (JValue.arr []) = JValue.arr urlItems)
    (hnt : notify_type_of kvs = some nt)
    (ht : pyOr (pyGet kvs "title") (JValue.str "") = JValue.str t)
    (hb : pyOr (pyGet kvs "body") (JValue.str "") = JValue.str b)
    (hz : addLoop add 0 urlItems ≠ 0)
    (hres : notify t b nt = Except.ok res) :
    runMain (some (JValue.obj kvs)) add notify
        = Outcome.exited [resultLine res (addLoop add 0 urlItems)] []
            (if res then 0 else 1)
    ∧ 1 ≤ addLoop add 0 urlItems
    ∧ addLoop add 0 urlItems ≤ urlItems.length :=
  ⟨runMain_dispatch_ok kvs urlItems nt t b res add notify hu hnt ht hb hz hres,
   Nat.one_le_iff_ne_zero.mpr hz,
   addLoop_le add urlItems 0⟩

/-- C10 witness: two candidate urls, one valid: `destinations` is 1,
between 1 and the list length 2. -/
theorem C10_witness :
    runMain (some (JValue.obj [("urls",
        JValue.arr [JValue.str "  ", JValue.str "m"])])) addAlways notifyOk
        = Outcome.exited
            [resultLine true (addLoop addAlways 0 [JValue.str "  ", JValue.str "m"])]
            [] (if true then 0 else 1)
    ∧ 1 ≤ addLoop addAlways 0 [JValue.str "  ", JValue.str "m"]
    ∧ addLoop addAlways 0 [JValue.str "  ", JValue.str "m"]
        ≤ [JValue.str "  ", JValue.str "m"].length :=
  C10_theorem [("urls", JValue.arr [JValue.str "  ", JValue.str "m"])]
    [JValue.str "  ", JValue.str "m"] "info" "" "" true addAlways notifyOk
    rfl rfl rfl rfl (by decide) rfl
